import Mathlib

/-!
Shallow embedding of `src/pmgr.c` (m1n1 power-domain controller) and proofs
about its power-domain dependency resolution and state-transition engine.

Register and device-tree primitives (`read32`, `mask32`, `poll32`, `adt_*`)
are declared in headers that are not part of this repository snapshot; they
are modelled from the specification (see their doc comments).  Everything in
the `pmgr_*` family is translated directly from `src/pmgr.c`.
-/

set_option linter.unusedVariables false

/-- Addresses of memory-mapped registers, modelled as naturals. -/
abbrev Addr := Nat

/-- Bit `n`, as in the `BIT` macro. -/
def BIT (n : Nat) : Nat := 2 ^ n

/-- Contiguous bit mask covering bits `l` to `h` inclusive, as in `GENMASK`. -/
def GENMASK (h l : Nat) : Nat := (2 ^ (h + 1) - 1) - (2 ^ l - 1)

def PMGR_RESET : Nat := BIT 31
def PMGR_AUTO_ENABLE : Nat := BIT 28
def PMGR_PS_AUTO : Nat := GENMASK 27 24
def PMGR_PARENT_OFF : Nat := BIT 11
def PMGR_DEV_DISABLE : Nat := BIT 10
def PMGR_WAS_CLKGATED : Nat := BIT 9
def PMGR_WAS_PWRGATED : Nat := BIT 8
def PMGR_PS_ACTUAL : Nat := GENMASK 7 4
def PMGR_PS_TARGET : Nat := GENMASK 3 0

def PMGR_PS_ACTIVE : Nat := 0xf
def PMGR_PS_CLKGATE : Nat := 0x4
def PMGR_PS_PWRGATE : Nat := 0x0

def PMGR_POLL_TIMEOUT : Nat := 10000

def PMGR_FLAG_VIRTUAL : Nat := 0x10

/-- Fuel-driven count of trailing zero bits; `fuel` only bounds recursion. -/
def ctzFuel : Nat → Nat → Nat
  | _, 0 => 0
  | 0, _ => 0
  | fuel + 1, n => if n % 2 = 1 then 0 else ctzFuel fuel (n / 2) + 1

/-- Count of trailing zero bits of `n` (the shift implied by a field mask). -/
def ctz (n : Nat) : Nat := ctzFuel n n

/-- Shift a field value into position under `mask`, as in `FIELD_PREP`. -/
def FIELD_PREP (mask v : Nat) : Nat := (v <<< ctz mask) &&& mask

/-- Extract the field under `mask` from a register value, as in `FIELD_GET`. -/
def FIELD_GET (mask r : Nat) : Nat := (r &&& mask) >>> ctz mask

/-- One RegisterIO event: a register read or a register write. -/
inductive Ev where
  | read (addr : Addr) (val : Nat)
  | write (addr : Addr) (val : Nat)
deriving DecidableEq

/-- Address touched by a RegisterIO event. -/
def Ev.evAddr : Ev → Addr
  | .read a _ => a
  | .write a _ => a

/-- Hardware model: `react addr v` is the register value observed at `addr`
after the engine writes the raw value `v` there (the hardware may flip the
ACTUAL_STATE bits in response to a TARGET_STATE request, or leave them stuck). -/
structure Env where
  react : Addr → Nat → Nat

/-- Machine state threaded through the engine: current register contents plus
the chronological trace of RegisterIO events performed so far. -/
structure St where
  mem : Addr → Nat
  trace : List Ev

/-- Modelled from the spec: `read32(addr) -> u32`, a primitive register read. -/
def read32 (st : St) (addr : Addr) : Nat × St :=
  (st.mem addr, { st with trace := st.trace ++ [Ev.read addr (st.mem addr)] })

/-- Modelled from the spec: a primitive register write; the stored value is
the hardware's reaction to the written raw value. -/
def write32 (env : Env) (st : St) (addr : Addr) (v : Nat) : St :=
  { mem := fun a => if a = addr then env.react addr v else st.mem a,
    trace := st.trace ++ [Ev.write addr v] }

/-- Modelled from the spec: `write32-masked(addr, mask, value)` — read,
clear the masked field, or in the new field value, write back. -/
def mask32 (env : Env) (st : St) (addr : Addr) (clear set : Nat) : St :=
  match read32 st addr with
  | (old, st1) => write32 env st1 addr ((old &&& (0xffffffff ^^^ clear)) ||| set)

/-- Modelled from the spec: `poll32(addr, mask, expected, timeout) ->
success|timeout` — repeatedly read `addr` until the masked value equals
`target`, giving up (result `-1`) after `timeout` iterations. -/
def poll32 (st : St) (addr mask target : Nat) : Nat → Int × St
  | 0 => (-1, st)
  | fuel + 1 =>
    match read32 st addr with
    | (v, st1) =>
      if v &&& mask = target then (0, st1)
      else poll32 st1 addr mask target fuel

/-- One record of the `devices` property (`struct pmgr_device` in pmgr.c). -/
structure PmgrDevice where
  flags : Nat
  parent0 : Nat
  parent1 : Nat
  addr_offset : Nat
  psreg_idx : Nat
  id : Nat
  name : String
deriving DecidableEq

/-- Modelled from the spec: the DeviceTreeSource collaborator — lookup of the
PMU node, its `ps-regs` / `devices` properties, register-bank base addresses,
and a node's `clock-gates` property (an array of u32 device ids). -/
structure Adt where
  pmgrNode : Bool
  psRegs : Option (List Nat)
  devicesProp : Option (List PmgrDevice)
  regBase : Nat → Option Nat
  nodeOffset : String → Option Int
  clockGates : String → Option (List Nat)

/-- The pmgr module's global state after (attempted) initialization:
`pmgr_initialized`, `pmgr_ps_regs`, `pmgr_devices`. -/
structure Pmgr where
  initialized : Bool
  ps_regs : List Nat
  devices : List PmgrDevice

/-- Byte length of the loaded `ps-regs` property (an array of u32 words). -/
def Pmgr.ps_regs_len (p : Pmgr) : Nat := 4 * p.ps_regs.length

/-- Translation of `pmgr_get_psreg`: bounds-check `idx * 12` against the
byte length of `ps-regs`, then resolve the bank base address and add the
per-bank byte offset; `0` is the failure sentinel. -/
def pmgr_get_psreg (adt : Adt) (p : Pmgr) (idx : Nat) : Nat :=
  if p.ps_regs_len ≤ idx * 12 then 0
  else
    let reg_idx := p.ps_regs.getD (3 * idx) 0
    let reg_offset := p.ps_regs.getD (3 * idx + 1) 0
    match adt.regBase reg_idx with
    | none => 0
    | some base => base + reg_offset

/-- Translation of `pmgr_set_mode`: masked-write the TARGET_STATE field, then
poll the ACTUAL_STATE field for the requested mode under the fixed budget. -/
def pmgr_set_mode (env : Env) (st : St) (addr : Addr) (target_mode : Nat) : Int × St :=
  match poll32 (mask32 env st addr PMGR_PS_TARGET (FIELD_PREP PMGR_PS_TARGET target_mode))
      addr PMGR_PS_ACTUAL (FIELD_PREP PMGR_PS_ACTUAL target_mode)
      PMGR_POLL_TIMEOUT with
  | (r, st2) => if r < 0 then (-1, st2) else (0, st2)

/-- Translation of `pmgr_find_device`: linear scan of the device table for the
first record with the given id. -/
def pmgr_find_device (p : Pmgr) (id : Nat) : Option PmgrDevice :=
  p.devices.find? (fun d => d.id == id)

/-- Translation of `pmgr_device_get_addr`: bank address plus
`addr_offset << 3`; `0` propagates bank-resolution failure. -/
def pmgr_device_get_addr (adt : Adt) (p : Pmgr) (device : PmgrDevice) : Nat :=
  let addr := pmgr_get_psreg adt p device.psreg_idx
  if addr = 0 then 0
  else addr + device.addr_offset * 8

/-- Translation of the non-recursive body of `pmgr_set_mode_recursive`:
for a non-virtual device resolve its register address (failing on `0`) and
apply `pmgr_set_mode`; a virtual device performs no RegisterIO. -/
def pmgr_self_step (env : Env) (adt : Adt) (p : Pmgr) (device : PmgrDevice)
    (target_mode : Nat) (st : St) : Int × St :=
  if device.flags &&& PMGR_FLAG_VIRTUAL = 0 then
    let addr := pmgr_device_get_addr adt p device
    if addr = 0 then (-1, st)
    else pmgr_set_mode env st addr target_mode
  else (0, st)

/-- Translation of `pmgr_set_mode_recursive`.  The C source recurses into the
parent slots trusting the table to be acyclic; the `fuel` argument bounds that
recursion in the embedding (exhaustion yields the error result `-1`). -/
def pmgr_set_mode_recursive (env : Env) (adt : Adt) (p : Pmgr) :
    Nat → Nat → Nat → Bool → St → Int × St
  | 0, _, _, _, st => (-1, st)
  | fuel + 1, id, target_mode, recurse, st =>
    if p.initialized = false then (-1, st)
    else if id = 0 then (-1, st)
    else
      match pmgr_find_device p id with
      | none => (-1, st)
      | some device =>
        let s1 := pmgr_self_step env adt p device target_mode st
        if s1.1 < 0 then (-1, s1.2)
        else if recurse = false then (0, s1.2)
        else
          let s2 := if device.parent0 ≠ 0 then
              pmgr_set_mode_recursive env adt p fuel device.parent0 target_mode true s1.2
            else (0, s1.2)
          if s2.1 < 0 then s2
          else
            let s3 := if device.parent1 ≠ 0 then
                pmgr_set_mode_recursive env adt p fuel device.parent1 target_mode true s2.2
              else (0, s2.2)
            if s3.1 < 0 then s3 else (0, s3.2)

/-- Translation of `pmgr_clock_enable`: recursive transition to ACTIVE. -/
def pmgr_clock_enable (env : Env) (adt : Adt) (p : Pmgr) (fuel id : Nat) (st : St) :
    Int × St :=
  pmgr_set_mode_recursive env adt p fuel id PMGR_PS_ACTIVE true st

/-- Translation of `pmgr_clock_disable`: non-recursive transition to
POWER_GATED. -/
def pmgr_clock_disable (env : Env) (adt : Adt) (p : Pmgr) (fuel id : Nat) (st : St) :
    Int × St :=
  pmgr_set_mode_recursive env adt p fuel id PMGR_PS_PWRGATE false st

/-- Translation of `pmgr_adt_find_clocks`: locate the node at `path` and read
its non-empty `clock-gates` property. -/
def pmgr_adt_find_clocks (adt : Adt) (path : String) : Option (List Nat) :=
  match adt.nodeOffset path with
  | none => none
  | some _ =>
    match adt.clockGates path with
    | none => none
    | some clocks => if clocks = [] then none else some clocks

/-- Translation of the loop of `pmgr_adt_clocks_set_mode`: apply the per-id
transition to every entry, latching `-1` into `ret` on any failure. -/
def pmgr_clocks_loop (env : Env) (adt : Adt) (p : Pmgr) (fuel target_mode : Nat)
    (recurse : Bool) : List Nat → Int → St → Int × St
  | [], ret, st => (ret, st)
  | c :: rest, ret, st =>
    match pmgr_set_mode_recursive env adt p fuel c target_mode recurse st with
    | (r, st1) =>
      pmgr_clocks_loop env adt p fuel target_mode recurse rest
        (if r ≠ 0 then -1 else ret) st1

/-- Translation of `pmgr_adt_clocks_set_mode`. -/
def pmgr_adt_clocks_set_mode (env : Env) (adt : Adt) (p : Pmgr) (fuel : Nat)
    (path : String) (target_mode : Nat) (recurse : Bool) (st : St) : Int × St :=
  match pmgr_adt_find_clocks adt path with
  | none => (-1, st)
  | some clocks => pmgr_clocks_loop env adt p fuel target_mode recurse clocks 0 st

/-- Translation of `pmgr_adt_clocks_enable`. -/
def pmgr_adt_clocks_enable (env : Env) (adt : Adt) (p : Pmgr) (fuel : Nat)
    (path : String) (st : St) : Int × St :=
  pmgr_adt_clocks_set_mode env adt p fuel path PMGR_PS_ACTIVE true st

/-- Translation of `pmgr_adt_clocks_disable`. -/
def pmgr_adt_clocks_disable (env : Env) (adt : Adt) (p : Pmgr) (fuel : Nat)
    (path : String) (st : St) : Int × St :=
  pmgr_adt_clocks_set_mode env adt p fuel path PMGR_PS_PWRGATE false st

/-- Translation of the inner (parent-slot) body of the reconciliation loop in
`pmgr_init`: skip the empty slot, a failed parent lookup, or an unresolvable
parent address; otherwise read the parent register and, when it shows neither
AUTO_ENABLE nor TARGET_STATE == ACTIVE, force it to ACTIVE via `pmgr_set_mode`
(whose result is discarded). -/
def pmgr_reconcile_parent (env : Env) (adt : Adt) (p : Pmgr) (st : St) (pid : Nat) : St :=
  if pid = 0 then st
  else
    match pmgr_find_device p pid with
    | none => st
    | some pdevice =>
      let paddr := pmgr_device_get_addr adt p pdevice
      if paddr = 0 then st
      else
        match read32 st paddr with
        | (reg, st1) =>
          if reg &&& PMGR_AUTO_ENABLE = 0 ∧ FIELD_GET PMGR_PS_TARGET reg ≠ PMGR_PS_ACTIVE then
            (pmgr_set_mode env st1 paddr PMGR_PS_ACTIVE).2
          else st1

/-- Translation of the outer body of the reconciliation loop in `pmgr_init`:
skip virtual or unresolvable devices, read the device register and, only when
it shows AUTO_ENABLE or TARGET_STATE == ACTIVE, reconcile parent slot 0 and
then parent slot 1. -/
def pmgr_reconcile_device (env : Env) (adt : Adt) (p : Pmgr) (st : St)
    (device : PmgrDevice) : St :=
  if device.flags &&& PMGR_FLAG_VIRTUAL ≠ 0 then st
  else
    let addr := pmgr_device_get_addr adt p device
    if addr = 0 then st
    else
      match read32 st addr with
      | (reg, st1) =>
        if reg &&& PMGR_AUTO_ENABLE ≠ 0 ∨ FIELD_GET PMGR_PS_TARGET reg = PMGR_PS_ACTIVE then
          pmgr_reconcile_parent env adt p
            (pmgr_reconcile_parent env adt p st1 device.parent0) device.parent1
        else st1

/-- Translation of `pmgr_init`: locate the PMU node, load `ps-regs` and
`devices` (failing when absent or empty), mark the module initialized, and run
the reconciliation pass over every device.  The result of the pass never
affects the return value. -/
def pmgr_init (env : Env) (adt : Adt) (st : St) : Int × Pmgr × St :=
  if adt.pmgrNode = false then (-1, ⟨false, [], []⟩, st)
  else
    match adt.psRegs with
    | none => (-1, ⟨false, [], []⟩, st)
    | some ps =>
      if ps = [] then (-1, ⟨false, [], []⟩, st)
      else
        match adt.devicesProp with
        | none => (-1, ⟨false, ps, []⟩, st)
        | some devs =>
          if devs = [] then (-1, ⟨false, ps, []⟩, st)
          else
            let p : Pmgr := ⟨true, ps, devs⟩
            (0, p, devs.foldl (pmgr_reconcile_device env adt p) st)

/-- Raw value that `pmgr_set_mode` masked-writes at `addr`: the old register
contents with the TARGET_STATE field replaced by `t`. -/
def targetWriteVal (m : Addr → Nat) (addr t : Nat) : Nat :=
  (m addr &&& (0xffffffff ^^^ PMGR_PS_TARGET)) ||| FIELD_PREP PMGR_PS_TARGET t

/-- The hardware acknowledges the transition: after the masked write the
register's ACTUAL_STATE field equals the requested mode, so the poll inside
`pmgr_set_mode` succeeds. -/
def set_mode_ok (env : Env) (m : Addr → Nat) (addr t : Nat) : Prop :=
  env.react addr (targetWriteVal m addr t) &&& PMGR_PS_ACTUAL = FIELD_PREP PMGR_PS_ACTUAL t

instance (env : Env) (m : Addr → Nat) (addr t : Nat) :
    Decidable (set_mode_ok env m addr t) := by
  unfold set_mode_ok
  infer_instance

theorem mask32_eq (env : Env) (st : St) (addr clear set : Nat) :
    mask32 env st addr clear set =
      ⟨fun a => if a = addr
          then env.react addr ((st.mem addr &&& (0xffffffff ^^^ clear)) ||| set)
          else st.mem a,
       st.trace ++ [Ev.read addr (st.mem addr),
                    Ev.write addr ((st.mem addr &&& (0xffffffff ^^^ clear)) ||| set)]⟩ := by
  simp [mask32, read32, write32]

theorem poll32_stuck (addr mask target : Nat) :
    ∀ (fuel : Nat) (st : St), st.mem addr &&& mask ≠ target →
      poll32 st addr mask target fuel =
        (-1, ⟨st.mem, st.trace ++ List.replicate fuel (Ev.read addr (st.mem addr))⟩) := by
  intro fuel
  induction fuel with
  | zero => intro st h; simp [poll32]
  | succ n ih =>
    intro st h
    simp only [poll32, read32, if_neg h]
    rw [ih]
    · simp [List.replicate_succ]
    · exact h

theorem poll32_hit (st : St) (addr mask target fuel : Nat)
    (h : st.mem addr &&& mask = target) :
    poll32 st addr mask target (fuel + 1) =
      (0, ⟨st.mem, st.trace ++ [Ev.read addr (st.mem addr)]⟩) := by
  simp [poll32, read32, h]

theorem pmgr_set_mode_cases (env : Env) (st : St) (addr t : Nat) :
    pmgr_set_mode env st addr t =
      (if set_mode_ok env st.mem addr t then 0 else -1,
       ⟨fun a => if a = addr then env.react addr (targetWriteVal st.mem addr t) else st.mem a,
        st.trace ++ [Ev.read addr (st.mem addr), Ev.write addr (targetWriteVal st.mem addr t)] ++
          (if set_mode_ok env st.mem addr t
           then [Ev.read addr (env.react addr (targetWriteVal st.mem addr t))]
           else List.replicate PMGR_POLL_TIMEOUT
                  (Ev.read addr (env.react addr (targetWriteVal st.mem addr t))))⟩) := by
  unfold pmgr_set_mode
  rw [mask32_eq]
  by_cases h : set_mode_ok env st.mem addr t
  · rw [show PMGR_POLL_TIMEOUT = 9999 + 1 from rfl]
    rw [poll32_hit]
    · simp [h, targetWriteVal]
    · simpa [set_mode_ok, targetWriteVal] using h
  · rw [poll32_stuck]
    · simp [h, targetWriteVal]
    · simpa [set_mode_ok, targetWriteVal] using h

theorem pmgr_set_mode_result_cases (env : Env) (st : St) (addr t : Nat) :
    (pmgr_set_mode env st addr t).1 = 0 ∨ (pmgr_set_mode env st addr t).1 = -1 := by
  rw [pmgr_set_mode_cases]
  by_cases h : set_mode_ok env st.mem addr t <;> simp [h]

theorem pmgr_set_mode_frame (env : Env) (st : St) (addr t : Nat) (x : Addr)
    (hx : x ≠ addr) :
    (pmgr_set_mode env st addr t).2.mem x = st.mem x := by
  rw [pmgr_set_mode_cases]
  simp [hx]

theorem pmgr_set_mode_trace_shape (env : Env) (st : St) (addr t : Nat) :
    ∃ rest, (pmgr_set_mode env st addr t).2.trace =
        st.trace ++ [Ev.read addr (st.mem addr),
                     Ev.write addr (targetWriteVal st.mem addr t)] ++ rest ∧
      ∀ ev ∈ rest, ev.evAddr = addr := by
  rw [pmgr_set_mode_cases]
  by_cases h : set_mode_ok env st.mem addr t
  · refine ⟨[Ev.read addr (env.react addr (targetWriteVal st.mem addr t))], ?_, ?_⟩
    · simp [h]
    · intro ev hev
      simp at hev
      simp [hev, Ev.evAddr]
  · refine ⟨List.replicate PMGR_POLL_TIMEOUT
        (Ev.read addr (env.react addr (targetWriteVal st.mem addr t))), ?_, ?_⟩
    · simp [h]
    · intro ev hev
      rw [List.eq_of_mem_replicate hev]
      rfl

theorem pmgr_set_mode_delta_addr (env : Env) (st : St) (addr t : Nat) :
    ∃ delta, (pmgr_set_mode env st addr t).2.trace = st.trace ++ delta ∧
      ∀ ev ∈ delta, ev.evAddr = addr := by
  obtain ⟨rest, htr, hrest⟩ := pmgr_set_mode_trace_shape env st addr t
  refine ⟨[Ev.read addr (st.mem addr), Ev.write addr (targetWriteVal st.mem addr t)] ++ rest,
    ?_, ?_⟩
  · rw [htr, List.append_assoc]
  · intro ev hev
    rcases List.mem_append.mp hev with h1 | h2
    · simp at h1
      rcases h1 with h1 | h1 <;> simp [h1, Ev.evAddr]
    · exact hrest ev h2

theorem pmgr_set_mode_zero_ok (env : Env) (st : St) (addr t : Nat)
    (h : (pmgr_set_mode env st addr t).1 = 0) :
    set_mode_ok env st.mem addr t := by
  by_cases hk : set_mode_ok env st.mem addr t
  · exact hk
  · rw [pmgr_set_mode_cases] at h
    simp [hk] at h

theorem pmgr_set_mode_ok_mem (env : Env) (st : St) (addr t : Nat)
    (h : set_mode_ok env st.mem addr t) :
    (pmgr_set_mode env st addr t).2.mem addr &&& PMGR_PS_ACTUAL =
      FIELD_PREP PMGR_PS_ACTUAL t := by
  rw [pmgr_set_mode_cases]
  simpa [set_mode_ok] using h

theorem pmgr_self_step_result_cases (env : Env) (adt : Adt) (p : Pmgr)
    (device : PmgrDevice) (t : Nat) (st : St) :
    (pmgr_self_step env adt p device t st).1 = 0 ∨
    (pmgr_self_step env adt p device t st).1 = -1 := by
  unfold pmgr_self_step
  by_cases hv : device.flags &&& PMGR_FLAG_VIRTUAL = 0
  · by_cases ha : pmgr_device_get_addr adt p device = 0
    · simp [hv, ha]
    · simpa [hv, ha] using pmgr_set_mode_result_cases env st (pmgr_device_get_addr adt p device) t
  · simp [hv]

theorem pmgr_self_step_trace_mono (env : Env) (adt : Adt) (p : Pmgr)
    (device : PmgrDevice) (t : Nat) (st : St) :
    ∃ delta, (pmgr_self_step env adt p device t st).2.trace = st.trace ++ delta := by
  unfold pmgr_self_step
  by_cases hv : device.flags &&& PMGR_FLAG_VIRTUAL = 0
  · by_cases ha : pmgr_device_get_addr adt p device = 0
    · exact ⟨[], by simp [hv, ha]⟩
    · obtain ⟨delta, htr, _⟩ :=
        pmgr_set_mode_delta_addr env st (pmgr_device_get_addr adt p device) t
      exact ⟨delta, by simpa [hv, ha] using htr⟩
  · exact ⟨[], by simp [hv]⟩

theorem pmgr_self_step_preserve_active (env : Env) (adt : Adt) (p : Pmgr)
    (device : PmgrDevice) (st : St) (a : Addr)
    (hr : (pmgr_self_step env adt p device PMGR_PS_ACTIVE st).1 = 0)
    (ha : st.mem a &&& PMGR_PS_ACTUAL = FIELD_PREP PMGR_PS_ACTUAL PMGR_PS_ACTIVE) :
    (pmgr_self_step env adt p device PMGR_PS_ACTIVE st).2.mem a &&& PMGR_PS_ACTUAL =
      FIELD_PREP PMGR_PS_ACTUAL PMGR_PS_ACTIVE := by
  unfold pmgr_self_step at hr ⊢
  by_cases hv : device.flags &&& PMGR_FLAG_VIRTUAL = 0
  · by_cases haddr : pmgr_device_get_addr adt p device = 0
    · simpa [hv, haddr] using ha
    · simp only [hv, if_true, haddr, if_false, if_neg haddr] at hr ⊢
      by_cases hx : a = pmgr_device_get_addr adt p device
      · subst hx
        exact pmgr_set_mode_ok_mem env st _ PMGR_PS_ACTIVE
          (pmgr_set_mode_zero_ok env st _ PMGR_PS_ACTIVE hr)
      · rw [pmgr_set_mode_frame env st _ _ a hx]
        exact ha
  · simpa [hv] using ha

theorem rec_succ_eq (env : Env) (adt : Adt) (p : Pmgr) (n id t : Nat) (rc : Bool)
    (st : St) (device : PmgrDevice)
    (hinit : p.initialized = true) (hid : id ≠ 0)
    (hfind : pmgr_find_device p id = some device) :
    pmgr_set_mode_recursive env adt p (n + 1) id t rc st =
      (let s1 := pmgr_self_step env adt p device t st
       if s1.1 < 0 then (-1, s1.2)
       else if rc = false then (0, s1.2)
       else
         let s2 := if device.parent0 ≠ 0 then
             pmgr_set_mode_recursive env adt p n device.parent0 t true s1.2
           else (0, s1.2)
         if s2.1 < 0 then s2
         else
           let s3 := if device.parent1 ≠ 0 then
               pmgr_set_mode_recursive env adt p n device.parent1 t true s2.2
             else (0, s2.2)
           if s3.1 < 0 then s3 else (0, s3.2)) := by
  simp [pmgr_set_mode_recursive, hinit, hid, hfind]

theorem rec_uninit (env : Env) (adt : Adt) (p : Pmgr)
    (hinit : p.initialized = false) :
    ∀ (fuel id t : Nat) (rc : Bool) (st : St),
      pmgr_set_mode_recursive env adt p fuel id t rc st = (-1, st) := by
  intro fuel id t rc st
  cases fuel with
  | zero => rfl
  | succ n => simp [pmgr_set_mode_recursive, hinit]

theorem rec_id_zero (env : Env) (adt : Adt) (p : Pmgr) (n t : Nat) (rc : Bool)
    (st : St) :
    pmgr_set_mode_recursive env adt p (n + 1) 0 t rc st = (-1, st) := by
  by_cases hinit : p.initialized = false
  · simp [pmgr_set_mode_recursive, hinit]
  · simp [pmgr_set_mode_recursive, hinit]

theorem rec_not_found (env : Env) (adt : Adt) (p : Pmgr) (n id t : Nat) (rc : Bool)
    (st : St) (hid : id ≠ 0) (hfind : pmgr_find_device p id = none) :
    pmgr_set_mode_recursive env adt p (n + 1) id t rc st = (-1, st) := by
  by_cases hinit : p.initialized = false
  · simp [pmgr_set_mode_recursive, hinit]
  · simp [pmgr_set_mode_recursive, hinit, hid, hfind]

theorem rec_result_cases (env : Env) (adt : Adt) (p : Pmgr) :
    ∀ (fuel id t : Nat) (rc : Bool) (st : St),
      (pmgr_set_mode_recursive env adt p fuel id t rc st).1 = 0 ∨
      (pmgr_set_mode_recursive env adt p fuel id t rc st).1 = -1 := by
  intro fuel
  induction fuel with
  | zero => intro id t rc st; right; rfl
  | succ n ih =>
    intro id t rc st
    by_cases hinit : p.initialized = false
    · right; rw [rec_uninit env adt p hinit]
    · rw [Bool.not_eq_false] at hinit
      by_cases hid : id = 0
      · right; rw [hid, rec_id_zero]
      · cases hfind : pmgr_find_device p id with
        | none => right; rw [rec_not_found env adt p n id t rc st hid hfind]
        | some device =>
          rw [rec_succ_eq env adt p n id t rc st device hinit hid hfind]
          rcases hself : pmgr_self_step env adt p device t st with ⟨r, st1⟩
          simp only [hself]
          by_cases hr : r < 0
          · right; simp [hr]
          · rw [if_neg hr]
            by_cases hrc : rc = false
            · left; rw [if_pos hrc]
            · rw [if_neg hrc]
              rcases h0 : (if device.parent0 ≠ 0 then
                  pmgr_set_mode_recursive env adt p n device.parent0 t true st1
                else (0, st1)) with ⟨r0, st2⟩
              simp only [h0]
              have hc0 : r0 = 0 ∨ r0 = -1 := by
                by_cases hp0 : device.parent0 ≠ 0
                · rw [if_pos hp0] at h0
                  have hcs := ih device.parent0 t true st1
                  rw [h0] at hcs
                  exact hcs
                · rw [if_neg hp0] at h0
                  left
                  have := congrArg Prod.fst h0
                  simpa using this.symm
              by_cases hr0 : r0 < 0
              · right
                rw [if_pos hr0]
                omega
              · rw [if_neg hr0]
                rcases h1 : (if device.parent1 ≠ 0 then
                    pmgr_set_mode_recursive env adt p n device.parent1 t true st2
                  else (0, st2)) with ⟨r1, st3⟩
                simp only [h1]
                have hc1 : r1 = 0 ∨ r1 = -1 := by
                  by_cases hp1 : device.parent1 ≠ 0
                  · rw [if_pos hp1] at h1
                    have hcs := ih device.parent1 t true st2
                    rw [h1] at hcs
                    exact hcs
                  · rw [if_neg hp1] at h1
                    left
                    have := congrArg Prod.fst h1
                    simpa using this.symm
                by_cases hr1 : r1 < 0
                · right
                  rw [if_pos hr1]
                  omega
                · left
                  rw [if_neg hr1]

theorem rec_trace_mono (env : Env) (adt : Adt) (p : Pmgr) :
    ∀ (fuel id t : Nat) (rc : Bool) (st : St),
      ∃ delta, (pmgr_set_mode_recursive env adt p fuel id t rc st).2.trace =
        st.trace ++ delta := by
  intro fuel
  induction fuel with
  | zero => intro id t rc st; exact ⟨[], by simp [pmgr_set_mode_recursive]⟩
  | succ n ih =>
    intro id t rc st
    by_cases hinit : p.initialized = false
    · rw [rec_uninit env adt p hinit]
      exact ⟨[], by simp⟩
    · rw [Bool.not_eq_false] at hinit
      by_cases hid : id = 0
      · rw [hid, rec_id_zero]
        exact ⟨[], by simp⟩
      · cases hfind : pmgr_find_device p id with
        | none =>
          rw [rec_not_found env adt p n id t rc st hid hfind]
          exact ⟨[], by simp⟩
        | some device =>
          rcases hself : pmgr_self_step env adt p device t st with ⟨r, st1⟩
          have hd1 : ∃ d, st1.trace = st.trace ++ d := by
            have hm := pmgr_self_step_trace_mono env adt p device t st
            rw [hself] at hm
            exact hm
          rcases hd1 with ⟨d1, hd1⟩
          rw [rec_succ_eq env adt p n id t rc st device hinit hid hfind]
          simp only [hself]
          by_cases hr : r < 0
          · rw [if_pos hr]
            exact ⟨d1, hd1⟩
          · rw [if_neg hr]
            by_cases hrc : rc = false
            · rw [if_pos hrc]
              exact ⟨d1, hd1⟩
            · rw [if_neg hrc]
              rcases h0 : (if device.parent0 ≠ 0 then
                  pmgr_set_mode_recursive env adt p n device.parent0 t true st1
                else (0, st1)) with ⟨r0, st2⟩
              simp only [h0]
              have hd2 : ∃ d, st2.trace = st1.trace ++ d := by
                by_cases hp0 : device.parent0 ≠ 0
                · rw [if_pos hp0] at h0
                  have hm := ih device.parent0 t true st1
                  rw [h0] at hm
                  exact hm
                · rw [if_neg hp0] at h0
                  have hst : st1 = st2 := by
                    have := congrArg Prod.snd h0
                    simpa using this
                  exact ⟨[], by rw [← hst]; simp⟩
              rcases hd2 with ⟨d2, hd2⟩
              by_cases hr0 : r0 < 0
              · rw [if_pos hr0]
                exact ⟨d1 ++ d2, by rw [hd2, hd1, List.append_assoc]⟩
              · rw [if_neg hr0]
                rcases h1 : (if device.parent1 ≠ 0 then
                    pmgr_set_mode_recursive env adt p n device.parent1 t true st2
                  else (0, st2)) with ⟨r1, st3⟩
                simp only [h1]
                have hd3 : ∃ d, st3.trace = st2.trace ++ d := by
                  by_cases hp1 : device.parent1 ≠ 0
                  · rw [if_pos hp1] at h1
                    have hm := ih device.parent1 t true st2
                    rw [h1] at hm
                    exact hm
                  · rw [if_neg hp1] at h1
                    have hst : st2 = st3 := by
                      have := congrArg Prod.snd h1
                      simpa using this
                    exact ⟨[], by rw [← hst]; simp⟩
                rcases hd3 with ⟨d3, hd3⟩
                by_cases hr1 : r1 < 0
                · rw [if_pos hr1]
                  exact ⟨d1 ++ (d2 ++ d3), by rw [hd3, hd2, hd1]; simp⟩
                · rw [if_neg hr1]
                  exact ⟨d1 ++ (d2 ++ d3), by rw [hd3, hd2, hd1]; simp⟩

theorem rec_preserve_active (env : Env) (adt : Adt) (p : Pmgr) :
    ∀ (fuel id : Nat) (rc : Bool) (st : St) (a : Addr),
      (pmgr_set_mode_recursive env adt p fuel id PMGR_PS_ACTIVE rc st).1 = 0 →
      st.mem a &&& PMGR_PS_ACTUAL = FIELD_PREP PMGR_PS_ACTUAL PMGR_PS_ACTIVE →
      (pmgr_set_mode_recursive env adt p fuel id PMGR_PS_ACTIVE rc st).2.mem a &&&
          PMGR_PS_ACTUAL = FIELD_PREP PMGR_PS_ACTUAL PMGR_PS_ACTIVE := by
  intro fuel
  induction fuel with
  | zero =>
    intro id rc st a hres hmem
    simp [pmgr_set_mode_recursive] at hres
  | succ n ih =>
    intro id rc st a hres hmem
    by_cases hinit : p.initialized = false
    · rw [rec_uninit env adt p hinit] at hres
      simp at hres
    · rw [Bool.not_eq_false] at hinit
      by_cases hid : id = 0
      · rw [hid, rec_id_zero] at hres
        simp at hres
      · cases hfind : pmgr_find_device p id with
        | none =>
          rw [rec_not_found env adt p n id _ rc st hid hfind] at hres
          simp at hres
        | some device =>
          rcases hself : pmgr_self_step env adt p device PMGR_PS_ACTIVE st with ⟨r, st1⟩
          rw [rec_succ_eq env adt p n id _ rc st device hinit hid hfind] at hres ⊢
          simp only [hself] at hres ⊢
          by_cases hr : r < 0
          · rw [if_pos hr] at hres
            simp at hres
          · have hr0eq : r = 0 := by
              have hcs := pmgr_self_step_result_cases env adt p device PMGR_PS_ACTIVE st
              rw [hself] at hcs
              simp at hcs
              omega
            have hm1 : st1.mem a &&& PMGR_PS_ACTUAL = FIELD_PREP PMGR_PS_ACTUAL PMGR_PS_ACTIVE := by
              have hp := pmgr_self_step_preserve_active env adt p device st a
                (by rw [hself]; simp [hr0eq]) hmem
              rw [hself] at hp
              exact hp
            rw [if_neg hr] at hres ⊢
            by_cases hrc : rc = false
            · rw [if_pos hrc] at hres ⊢
              exact hm1
            · rw [if_neg hrc] at hres ⊢
              rcases h0 : (if device.parent0 ≠ 0 then
                  pmgr_set_mode_recursive env adt p n device.parent0 PMGR_PS_ACTIVE true st1
                else (0, st1)) with ⟨r0, st2⟩
              simp only [h0] at hres ⊢
              by_cases hr0 : r0 < 0
              · rw [if_pos hr0] at hres
                simp at hres
                omega
              · have hr0z : r0 = 0 := by
                  by_cases hp0 : device.parent0 ≠ 0
                  · rw [if_pos hp0] at h0
                    have hcs := rec_result_cases env adt p n device.parent0 PMGR_PS_ACTIVE true st1
                    rw [h0] at hcs
                    simp at hcs
                    omega
                  · rw [if_neg hp0] at h0
                    have := congrArg Prod.fst h0
                    simp at this
                    omega
                have hm2 : st2.mem a &&& PMGR_PS_ACTUAL =
                    FIELD_PREP PMGR_PS_ACTUAL PMGR_PS_ACTIVE := by
                  by_cases hp0 : device.parent0 ≠ 0
                  · rw [if_pos hp0] at h0
                    have hp := ih device.parent0 true st1 a (by rw [h0]; simp [hr0z]) hm1
                    rw [h0] at hp
                    exact hp
                  · rw [if_neg hp0] at h0
                    have hst : st1 = st2 := by
                      have := congrArg Prod.snd h0
                      simpa using this
                    rw [← hst]
                    exact hm1
                rw [if_neg hr0] at hres ⊢
                rcases h1 : (if device.parent1 ≠ 0 then
                    pmgr_set_mode_recursive env adt p n device.parent1 PMGR_PS_ACTIVE true st2
                  else (0, st2)) with ⟨r1, st3⟩
                simp only [h1] at hres ⊢
                have hm3 : st3.mem a &&& PMGR_PS_ACTUAL =
                    FIELD_PREP PMGR_PS_ACTUAL PMGR_PS_ACTIVE := by
                  by_cases hp1 : device.parent1 ≠ 0
                  · rw [if_pos hp1] at h1
                    have hr1z : r1 = 0 := by
                      have hcs := rec_result_cases env adt p n device.parent1 PMGR_PS_ACTIVE true st2
                      rw [h1] at hcs
                      simp at hcs
                      by_cases hr1 : r1 < 0
                      · rw [if_pos hr1] at hres
                        simp at hres
                        omega
                      · omega
                    have hp := ih device.parent1 true st2 a (by rw [h1]; simp [hr1z]) hm2
                    rw [h1] at hp
                    exact hp
                  · rw [if_neg hp1] at h1
                    have hst : st2 = st3 := by
                      have := congrArg Prod.snd h1
                      simpa using this
                    rw [← hst]
                    exact hm2
                by_cases hr1 : r1 < 0
                · rw [if_pos hr1] at hres
                  simp at hres
                  omega
                · rw [if_neg hr1] at hres ⊢
                  exact hm3

/-- Ids visited by the recursive Enable walk: the device itself, then the
subtree reached through parent slot 0, then the subtree reached through
parent slot 1 (bounded by the same fuel as the recursion). -/
def enable_visits (p : Pmgr) : Nat → Nat → List Nat
  | 0, _ => []
  | fuel + 1, id =>
    match pmgr_find_device p id with
    | none => [id]
    | some device =>
      id :: ((if device.parent0 ≠ 0 then enable_visits p fuel device.parent0 else []) ++
             (if device.parent1 ≠ 0 then enable_visits p fuel device.parent1 else []))

theorem pmgr_self_step_active (env : Env) (adt : Adt) (p : Pmgr) (device : PmgrDevice)
    (st : St)
    (hres : (pmgr_self_step env adt p device PMGR_PS_ACTIVE st).1 = 0)
    (hnv : device.flags &&& PMGR_FLAG_VIRTUAL = 0) :
    (pmgr_self_step env adt p device PMGR_PS_ACTIVE st).2.mem
        (pmgr_device_get_addr adt p device) &&& PMGR_PS_ACTUAL =
      FIELD_PREP PMGR_PS_ACTUAL PMGR_PS_ACTIVE := by
  unfold pmgr_self_step at hres ⊢
  rw [if_pos hnv] at hres ⊢
  by_cases ha : pmgr_device_get_addr adt p device = 0
  · simp [ha] at hres
  · simp only [ha, if_false, if_neg ha] at hres ⊢
    exact pmgr_set_mode_ok_mem env st _ PMGR_PS_ACTIVE
      (pmgr_set_mode_zero_ok env st _ PMGR_PS_ACTIVE hres)

theorem rec_visits_active (env : Env) (adt : Adt) (p : Pmgr) :
    ∀ (fuel id : Nat) (st : St),
      (pmgr_set_mode_recursive env adt p fuel id PMGR_PS_ACTIVE true st).1 = 0 →
      ∀ i ∈ enable_visits p fuel id, ∀ d2, pmgr_find_device p i = some d2 →
        d2.flags &&& PMGR_FLAG_VIRTUAL = 0 →
        (pmgr_set_mode_recursive env adt p fuel id PMGR_PS_ACTIVE true st).2.mem
            (pmgr_device_get_addr adt p d2) &&& PMGR_PS_ACTUAL =
          FIELD_PREP PMGR_PS_ACTUAL PMGR_PS_ACTIVE := by
  intro fuel
  induction fuel with
  | zero =>
    intro id st hres
    simp [pmgr_set_mode_recursive] at hres
  | succ n ih =>
    intro id st hres i hmem d2 hfind2 hnv2
    by_cases hinit : p.initialized = false
    · rw [rec_uninit env adt p hinit] at hres
      simp at hres
    · rw [Bool.not_eq_false] at hinit
      by_cases hid : id = 0
      · rw [hid, rec_id_zero] at hres
        simp at hres
      · cases hfind : pmgr_find_device p id with
        | none =>
          rw [rec_not_found env adt p n id _ true st hid hfind] at hres
          simp at hres
        | some device =>
          rcases hself : pmgr_self_step env adt p device PMGR_PS_ACTIVE st with ⟨r, st1⟩
          rw [rec_succ_eq env adt p n id _ true st device hinit hid hfind] at hres ⊢
          simp only [hself] at hres ⊢
          by_cases hr : r < 0
          · rw [if_pos hr] at hres
            simp at hres
          · have hrz : r = 0 := by
              have hcs := pmgr_self_step_result_cases env adt p device PMGR_PS_ACTIVE st
              rw [hself] at hcs
              simp at hcs
              omega
            rw [if_neg hr] at hres ⊢
            rw [if_neg (by decide : ¬(true = false))] at hres ⊢
            rcases h0 : (if device.parent0 ≠ 0 then
                pmgr_set_mode_recursive env adt p n device.parent0 PMGR_PS_ACTIVE true st1
              else (0, st1)) with ⟨r0, st2⟩
            simp only [h0] at hres ⊢
            by_cases hr0 : r0 < 0
            · rw [if_pos hr0] at hres
              simp at hres
              omega
            · have hr0z : r0 = 0 := by
                by_cases hp0 : device.parent0 ≠ 0
                · rw [if_pos hp0] at h0
                  have hcs := rec_result_cases env adt p n device.parent0 PMGR_PS_ACTIVE true st1
                  rw [h0] at hcs
                  simp at hcs
                  omega
                · rw [if_neg hp0] at h0
                  have := congrArg Prod.fst h0
                  simp at this
                  omega
              rw [if_neg hr0] at hres ⊢
              rcases h1 : (if device.parent1 ≠ 0 then
                  pmgr_set_mode_recursive env adt p n device.parent1 PMGR_PS_ACTIVE true st2
                else (0, st2)) with ⟨r1, st3⟩
              simp only [h1] at hres ⊢
              have hr1z : r1 = 0 := by
                by_cases hp1 : device.parent1 ≠ 0
                · rw [if_pos hp1] at h1
                  have hcs := rec_result_cases env adt p n device.parent1 PMGR_PS_ACTIVE true st2
                  rw [h1] at hcs
                  simp at hcs
                  by_cases hr1 : r1 < 0
                  · rw [if_pos hr1] at hres
                    simp at hres
                    omega
                  · omega
                · rw [if_neg hp1] at h1
                  have := congrArg Prod.fst h1
                  simp at this
                  omega
              rw [if_neg (by omega : ¬r1 < 0)] at hres ⊢
              -- the final state is st3; establish the property there
              have hstep2 : ∀ a : Addr,
                  st1.mem a &&& PMGR_PS_ACTUAL = FIELD_PREP PMGR_PS_ACTUAL PMGR_PS_ACTIVE →
                  st2.mem a &&& PMGR_PS_ACTUAL = FIELD_PREP PMGR_PS_ACTUAL PMGR_PS_ACTIVE := by
                intro a hp
                by_cases hp0 : device.parent0 ≠ 0
                · rw [if_pos hp0] at h0
                  have hpr := rec_preserve_active env adt p n device.parent0 true st1 a
                    (by rw [h0]; simp [hr0z]) hp
                  rw [h0] at hpr
                  exact hpr
                · rw [if_neg hp0] at h0
                  have hst : st1 = st2 := by
                    have := congrArg Prod.snd h0
                    simpa using this
                  rw [← hst]
                  exact hp
              have hstep3 : ∀ a : Addr,
                  st2.mem a &&& PMGR_PS_ACTUAL = FIELD_PREP PMGR_PS_ACTUAL PMGR_PS_ACTIVE →
                  st3.mem a &&& PMGR_PS_ACTUAL = FIELD_PREP PMGR_PS_ACTUAL PMGR_PS_ACTIVE := by
                intro a hp
                by_cases hp1 : device.parent1 ≠ 0
                · rw [if_pos hp1] at h1
                  have hpr := rec_preserve_active env adt p n device.parent1 true st2 a
                    (by rw [h1]; simp [hr1z]) hp
                  rw [h1] at hpr
                  exact hpr
                · rw [if_neg hp1] at h1
                  have hst : st2 = st3 := by
                    have := congrArg Prod.snd h1
                    simpa using this
                  rw [← hst]
                  exact hp
              simp only [enable_visits, hfind] at hmem
              rcases List.mem_cons.mp hmem with hmi | hmi
              · -- i is the device itself
                subst hmi
                rw [hfind] at hfind2
                have hdev : d2 = device := by
                  injection hfind2.symm
                subst hdev
                have hown := pmgr_self_step_active env adt p d2 st
                  (by rw [hself]; simp [hrz]) hnv2
                rw [hself] at hown
                exact hstep3 _ (hstep2 _ hown)
              · rcases List.mem_append.mp hmi with hmi0 | hmi1
                · have hp0 : device.parent0 ≠ 0 := by
                    by_contra hc
                    simp [hc] at hmi0
                  rw [if_pos hp0] at hmi0 h0
                  have hsub := ih device.parent0 st1 (by rw [h0]; simp [hr0z]) i hmi0 d2
                    hfind2 hnv2
                  rw [h0] at hsub
                  exact hstep3 _ hsub
                · have hp1 : device.parent1 ≠ 0 := by
                    by_contra hc
                    simp [hc] at hmi1
                  rw [if_pos hp1] at hmi1 h1
                  have hsub := ih device.parent1 st2 (by rw [h1]; simp [hr1z]) i hmi1 d2
                    hfind2 hnv2
                  rw [h1] at hsub
                  exact hsub

theorem rec_succ_trace_after_self (env : Env) (adt : Adt) (p : Pmgr) (n id t : Nat)
    (st : St) (device : PmgrDevice) (r : Int) (st1 : St)
    (hinit : p.initialized = true) (hid : id ≠ 0)
    (hfind : pmgr_find_device p id = some device)
    (hself : pmgr_self_step env adt p device t st = (r, st1)) :
    ∃ dd, (pmgr_set_mode_recursive env adt p (n + 1) id t true st).2.trace =
      st1.trace ++ dd := by
  rw [rec_succ_eq env adt p n id t true st device hinit hid hfind]
  simp only [hself]
  by_cases hr : r < 0
  · rw [if_pos hr]
    exact ⟨[], by simp⟩
  · rw [if_neg hr, if_neg (by decide : ¬(true = false))]
    rcases h0 : (if device.parent0 ≠ 0 then
        pmgr_set_mode_recursive env adt p n device.parent0 t true st1
      else (0, st1)) with ⟨r0, st2⟩
    simp only [h0]
    have hd2 : ∃ dd, st2.trace = st1.trace ++ dd := by
      by_cases hp0 : device.parent0 ≠ 0
      · rw [if_pos hp0] at h0
        have hm := rec_trace_mono env adt p n device.parent0 t true st1
        rw [h0] at hm
        exact hm
      · rw [if_neg hp0] at h0
        have hst : st1 = st2 := by
          have := congrArg Prod.snd h0
          simpa using this
        exact ⟨[], by rw [← hst]; simp⟩
    rcases hd2 with ⟨dd2, hd2⟩
    by_cases hr0 : r0 < 0
    · rw [if_pos hr0]
      exact ⟨dd2, hd2⟩
    · rw [if_neg hr0]
      rcases h1 : (if device.parent1 ≠ 0 then
          pmgr_set_mode_recursive env adt p n device.parent1 t true st2
        else (0, st2)) with ⟨r1, st3⟩
      simp only [h1]
      have hd3 : ∃ dd, st3.trace = st2.trace ++ dd := by
        by_cases hp1 : device.parent1 ≠ 0
        · rw [if_pos hp1] at h1
          have hm := rec_trace_mono env adt p n device.parent1 t true st2
          rw [h1] at hm
          exact hm
        · rw [if_neg hp1] at h1
          have hst : st2 = st3 := by
            have := congrArg Prod.snd h1
            simpa using this
          exact ⟨[], by rw [← hst]; simp⟩
      rcases hd3 with ⟨dd3, hd3⟩
      by_cases hr1 : r1 < 0
      · rw [if_pos hr1]
        exact ⟨dd2 ++ dd3, by rw [hd3, hd2]; simp⟩
      · rw [if_neg hr1]
        exact ⟨dd2 ++ dd3, by rw [hd3, hd2]; simp⟩

/-- C1: enabling a non-virtual device found in the table (with a resolvable
register address) first performs the TARGET_STATE := ACTIVE masked write on
the device's own register — the first two RegisterIO events of the call are
the read-modify-write on its own address — and, when the call returns
success, the device's own transition succeeded and every id visited by the
recursive walk over the non-zero parent slots (slot 0's subtree before
slot 1's, as listed by `enable_visits`) that names a non-virtual table device
is left with ACTUAL_STATE reading ACTIVE, i.e. all ancestors reached by the
recursion were driven to ACTIVE. -/
theorem c1_enable_self_first_then_ancestors_active
    (env : Env) (adt : Adt) (p : Pmgr) (fuel id : Nat) (d : PmgrDevice) (st : St)
    (hinit : p.initialized = true) (hid : id ≠ 0)
    (hfind : pmgr_find_device p id = some d)
    (hnv : d.flags &&& PMGR_FLAG_VIRTUAL = 0)
    (ha : pmgr_device_get_addr adt p d ≠ 0) :
    (∃ rest, (pmgr_set_mode_recursive env adt p (fuel + 1) id PMGR_PS_ACTIVE true st).2.trace =
        st.trace ++
          [Ev.read (pmgr_device_get_addr adt p d) (st.mem (pmgr_device_get_addr adt p d)),
           Ev.write (pmgr_device_get_addr adt p d)
             (targetWriteVal st.mem (pmgr_device_get_addr adt p d) PMGR_PS_ACTIVE)] ++ rest) ∧
    ((pmgr_set_mode_recursive env adt p (fuel + 1) id PMGR_PS_ACTIVE true st).1 = 0 →
      set_mode_ok env st.mem (pmgr_device_get_addr adt p d) PMGR_PS_ACTIVE) ∧
    ((pmgr_set_mode_recursive env adt p (fuel + 1) id PMGR_PS_ACTIVE true st).1 = 0 →
      ∀ i ∈ enable_visits p (fuel + 1) id, ∀ d2, pmgr_find_device p i = some d2 →
        d2.flags &&& PMGR_FLAG_VIRTUAL = 0 →
        (pmgr_set_mode_recursive env adt p (fuel + 1) id PMGR_PS_ACTIVE true st).2.mem
            (pmgr_device_get_addr adt p d2) &&& PMGR_PS_ACTUAL =
          FIELD_PREP PMGR_PS_ACTUAL PMGR_PS_ACTIVE) := by
  have hselfeq : pmgr_self_step env adt p d PMGR_PS_ACTIVE st =
      pmgr_set_mode env st (pmgr_device_get_addr adt p d) PMGR_PS_ACTIVE := by
    unfold pmgr_self_step
    rw [if_pos hnv]
    simp only [ha, if_false, if_neg ha]
  refine ⟨?_, ?_, ?_⟩
  · obtain ⟨rest0, hshape, _⟩ :=
      pmgr_set_mode_trace_shape env st (pmgr_device_get_addr adt p d) PMGR_PS_ACTIVE
    rcases hsm : pmgr_set_mode env st (pmgr_device_get_addr adt p d) PMGR_PS_ACTIVE
      with ⟨r, st1⟩
    have hself2 : pmgr_self_step env adt p d PMGR_PS_ACTIVE st = (r, st1) := by
      rw [hselfeq, hsm]
    obtain ⟨dd, hdd⟩ := rec_succ_trace_after_self env adt p fuel id PMGR_PS_ACTIVE st d r st1
      hinit hid hfind hself2
    refine ⟨rest0 ++ dd, ?_⟩
    rw [hdd]
    rw [hsm] at hshape
    simp only [] at hshape
    rw [hshape]
    simp [List.append_assoc]
  · intro hres
    rcases hsm : pmgr_set_mode env st (pmgr_device_get_addr adt p d) PMGR_PS_ACTIVE
      with ⟨r, st1⟩
    have hself2 : pmgr_self_step env adt p d PMGR_PS_ACTIVE st = (r, st1) := by
      rw [hselfeq, hsm]
    rw [rec_succ_eq env adt p fuel id PMGR_PS_ACTIVE true st d hinit hid hfind] at hres
    simp only [hself2] at hres
    have hrz : r = 0 := by
      by_cases hr : r < 0
      · rw [if_pos hr] at hres
        simp at hres
      · have hcs := pmgr_set_mode_result_cases env st (pmgr_device_get_addr adt p d)
          PMGR_PS_ACTIVE
        rw [hsm] at hcs
        simp at hcs
        omega
    have hsm1 : (pmgr_set_mode env st (pmgr_device_get_addr adt p d) PMGR_PS_ACTIVE).1 = 0 := by
      rw [hsm, hrz]
    exact pmgr_set_mode_zero_ok env st _ PMGR_PS_ACTIVE hsm1
  · intro hres
    exact rec_visits_active env adt p (fuel + 1) id st hres

/-- Concrete responsive hardware for witnesses: every write settles with
ACTUAL_STATE copied from the written TARGET_STATE field. -/
def envGood : Env := ⟨fun _ v => (v &&& 0xffffff0f) ||| ((v &&& 0xf) * 16)⟩

/-- Concrete parentless device with id 1 for witnesses. -/
def devW1 : PmgrDevice := ⟨0, 0, 0, 1, 0, 1, ""⟩

/-- Concrete device with id 2 whose parent slot 0 holds id 1, for witnesses. -/
def devW2 : PmgrDevice := ⟨0, 1, 0, 2, 0, 2, ""⟩

/-- Concrete device tree with one register bank at base 512. -/
def adtW : Adt := ⟨true, some [0, 0, 0], some [devW1, devW2],
  fun i => if i = 0 then some 512 else none, fun _ => some 0, fun _ => none⟩

/-- Concrete initialized module state holding `devW1` and `devW2`. -/
def pmgrW : Pmgr := ⟨true, [0, 0, 0], [devW1, devW2]⟩

/-- Concrete machine state with all registers zeroed and an empty trace. -/
def stW : St := ⟨fun _ => 0, []⟩

/-- Witness for C1: the enable of device 2 in the concrete two-device table
(device 2 with parent 1) satisfies every hypothesis of the C1 theorem. -/
theorem c1_witness :
    (∃ rest, (pmgr_set_mode_recursive envGood adtW pmgrW 2 2 PMGR_PS_ACTIVE true stW).2.trace =
        stW.trace ++
          [Ev.read (pmgr_device_get_addr adtW pmgrW devW2)
             (stW.mem (pmgr_device_get_addr adtW pmgrW devW2)),
           Ev.write (pmgr_device_get_addr adtW pmgrW devW2)
             (targetWriteVal stW.mem (pmgr_device_get_addr adtW pmgrW devW2) PMGR_PS_ACTIVE)]
          ++ rest) ∧
    ((pmgr_set_mode_recursive envGood adtW pmgrW 2 2 PMGR_PS_ACTIVE true stW).1 = 0 →
      set_mode_ok envGood stW.mem (pmgr_device_get_addr adtW pmgrW devW2) PMGR_PS_ACTIVE) ∧
    ((pmgr_set_mode_recursive envGood adtW pmgrW 2 2 PMGR_PS_ACTIVE true stW).1 = 0 →
      ∀ i ∈ enable_visits pmgrW 2 2, ∀ d2, pmgr_find_device pmgrW i = some d2 →
        d2.flags &&& PMGR_FLAG_VIRTUAL = 0 →
        (pmgr_set_mode_recursive envGood adtW pmgrW 2 2 PMGR_PS_ACTIVE true stW).2.mem
            (pmgr_device_get_addr adtW pmgrW d2) &&& PMGR_PS_ACTUAL =
          FIELD_PREP PMGR_PS_ACTUAL PMGR_PS_ACTIVE) :=
  c1_enable_self_first_then_ancestors_active envGood adtW pmgrW 1 2 devW2 stW rfl
    (by decide) rfl (by decide) (by decide)

/-- C2: disabling a device performs register writes only on the device's own
control register — every RegisterIO event of the call targets that single
address, and memory at every other address (in particular at the registers of
its parents and all other ancestors) is unchanged; no recursion into the
parent slots happens. -/
theorem c2_disable_only_own_register
    (env : Env) (adt : Adt) (p : Pmgr) (fuel id : Nat) (d : PmgrDevice) (st : St)
    (hfind : pmgr_find_device p id = some d) :
    (∀ x : Addr, x ≠ pmgr_device_get_addr adt p d →
      (pmgr_clock_disable env adt p (fuel + 1) id st).2.mem x = st.mem x) ∧
    (∃ delta, (pmgr_clock_disable env adt p (fuel + 1) id st).2.trace = st.trace ++ delta ∧
      ∀ ev ∈ delta, ev.evAddr = pmgr_device_get_addr adt p d) := by
  unfold pmgr_clock_disable
  by_cases hinit : p.initialized = false
  · rw [rec_uninit env adt p hinit]
    exact ⟨fun x hx => rfl, ⟨[], by simp, by simp⟩⟩
  · rw [Bool.not_eq_false] at hinit
    by_cases hid : id = 0
    · subst hid
      rw [rec_id_zero]
      exact ⟨fun x hx => rfl, ⟨[], by simp, by simp⟩⟩
    · rw [rec_succ_eq env adt p fuel id PMGR_PS_PWRGATE false st d hinit hid hfind]
      rcases hself : pmgr_self_step env adt p d PMGR_PS_PWRGATE st with ⟨r, st1⟩
      simp only [hself]
      have hframe : (∀ x : Addr, x ≠ pmgr_device_get_addr adt p d → st1.mem x = st.mem x) ∧
          (∃ delta, st1.trace = st.trace ++ delta ∧
            ∀ ev ∈ delta, ev.evAddr = pmgr_device_get_addr adt p d) := by
        unfold pmgr_self_step at hself
        by_cases hv : d.flags &&& PMGR_FLAG_VIRTUAL = 0
        · rw [if_pos hv] at hself
          by_cases haz : pmgr_device_get_addr adt p d = 0
          · simp only [haz, if_pos] at hself
            have hst : st = st1 := by
              have := congrArg Prod.snd hself
              simpa using this
            rw [← hst]
            exact ⟨fun x hx => rfl, ⟨[], by simp, by simp⟩⟩
          · simp only [haz, if_false, if_neg haz] at hself
            constructor
            · intro x hx
              have hfr := pmgr_set_mode_frame env st (pmgr_device_get_addr adt p d)
                PMGR_PS_PWRGATE x hx
              rw [hself] at hfr
              exact hfr
            · obtain ⟨delta, hd, hall⟩ :=
                pmgr_set_mode_delta_addr env st (pmgr_device_get_addr adt p d) PMGR_PS_PWRGATE
              rw [hself] at hd
              exact ⟨delta, hd, hall⟩
        · rw [if_neg hv] at hself
          have hst : st = st1 := by
            have := congrArg Prod.snd hself
            simpa using this
          rw [← hst]
          exact ⟨fun x hx => rfl, ⟨[], by simp, by simp⟩⟩
      by_cases hr : r < 0
      · rw [if_pos hr]
        exact hframe
      · rw [if_neg hr, if_pos trivial]
        exact hframe

/-- Witness for C2: disabling device 2 of the concrete table touches only
device 2's register. -/
theorem c2_witness :
    (∀ x : Addr, x ≠ pmgr_device_get_addr adtW pmgrW devW2 →
      (pmgr_clock_disable envGood adtW pmgrW 2 2 stW).2.mem x = stW.mem x) ∧
    (∃ delta, (pmgr_clock_disable envGood adtW pmgrW 2 2 stW).2.trace = stW.trace ++ delta ∧
      ∀ ev ∈ delta, ev.evAddr = pmgr_device_get_addr adtW pmgrW devW2) :=
  c2_disable_only_own_register envGood adtW pmgrW 1 2 devW2 stW rfl

/-- Counterexample for C4: in an initialized engine, the call with id 0 and
the call with the absent id 7 both return the same error value -1, so the two
error results are not distinct and the caller cannot distinguish them. -/
theorem c4_counterexample :
    (pmgr_set_mode_recursive envGood adtW pmgrW 1 0 PMGR_PS_ACTIVE true stW).1 = -1 ∧
    (pmgr_set_mode_recursive envGood adtW pmgrW 1 7 PMGR_PS_ACTIVE true stW).1 = -1 ∧
    (pmgr_set_mode_recursive envGood adtW pmgrW 1 0 PMGR_PS_ACTIVE true stW).1 =
      (pmgr_set_mode_recursive envGood adtW pmgrW 1 7 PMGR_PS_ACTIVE true stW).1 :=
  ⟨rfl, rfl, rfl⟩

/-- C4 (amended): set_domain_mode fails for id 0 and fails for any non-zero id
absent from the device table, leaving the machine state untouched in both
cases; however both failures return the same error value -1 — the source has
a single error code, so the two cases are not distinguishable by the caller. -/
theorem c4_invalid_and_unknown_both_fail
    (env : Env) (adt : Adt) (p : Pmgr) (fuel t : Nat) (rc : Bool) (st : St)
    (hinit : p.initialized = true) :
    (pmgr_set_mode_recursive env adt p (fuel + 1) 0 t rc st = (-1, st)) ∧
    (∀ id, id ≠ 0 → pmgr_find_device p id = none →
      pmgr_set_mode_recursive env adt p (fuel + 1) id t rc st = (-1, st)) := by
  constructor
  · exact rec_id_zero env adt p fuel t rc st
  · intro id hid hfind
    exact rec_not_found env adt p fuel id t rc st hid hfind

/-- Witness for C4 (amended) at the concrete two-device table. -/
theorem c4_witness :
    (pmgr_set_mode_recursive envGood adtW pmgrW 1 0 PMGR_PS_PWRGATE false stW = (-1, stW)) ∧
    (∀ id, id ≠ 0 → pmgr_find_device pmgrW id = none →
      pmgr_set_mode_recursive envGood adtW pmgrW 1 id PMGR_PS_PWRGATE false stW =
        (-1, stW)) :=
  c4_invalid_and_unknown_both_fail envGood adtW pmgrW 0 PMGR_PS_PWRGATE false stW rfl

theorem clocks_loop_uninit (env : Env) (adt : Adt) (p : Pmgr)
    (hinit : p.initialized = false) (fuel t : Nat) (rc : Bool) :
    ∀ (clocks : List Nat) (ret : Int) (st : St),
      pmgr_clocks_loop env adt p fuel t rc clocks ret st =
        (if clocks = [] then ret else -1, st) := by
  intro clocks
  induction clocks with
  | nil => intro ret st; simp [pmgr_clocks_loop]
  | cons c rest ih =>
    intro ret st
    simp only [pmgr_clocks_loop, rec_uninit env adt p hinit]
    rw [ih]
    by_cases hr : rest = [] <;> simp [hr]

/-- C5: every public operation invoked before a successful init returns the
error value -1 (the not-initialized failure) and performs zero RegisterIO
calls — the machine state, registers and trace included, is returned
untouched. -/
theorem c5_not_initialized_no_io
    (env : Env) (adt : Adt) (p : Pmgr) (fuel id : Nat) (path : String) (st : St)
    (hinit : p.initialized = false) :
    pmgr_clock_enable env adt p fuel id st = (-1, st) ∧
    pmgr_clock_disable env adt p fuel id st = (-1, st) ∧
    pmgr_adt_clocks_enable env adt p fuel path st = (-1, st) ∧
    pmgr_adt_clocks_disable env adt p fuel path st = (-1, st) := by
  have hbatch : ∀ t : Nat, ∀ rc : Bool,
      pmgr_adt_clocks_set_mode env adt p fuel path t rc st = (-1, st) := by
    intro t rc
    unfold pmgr_adt_clocks_set_mode
    cases hc : pmgr_adt_find_clocks adt path with
    | none => rfl
    | some clocks =>
      show pmgr_clocks_loop env adt p fuel t rc clocks 0 st = (-1, st)
      rw [clocks_loop_uninit env adt p hinit]
      have hne : clocks ≠ [] := by
        unfold pmgr_adt_find_clocks at hc
        cases hoff : adt.nodeOffset path with
        | none =>
          rw [hoff] at hc
          simp at hc
        | some off =>
          rw [hoff] at hc
          simp only [] at hc
          cases hcg : adt.clockGates path with
          | none =>
            rw [hcg] at hc
            simp at hc
          | some cl =>
            rw [hcg] at hc
            simp only [] at hc
            by_cases hcl : cl = []
            · rw [if_pos hcl] at hc
              simp at hc
            · rw [if_neg hcl] at hc
              have hcc : cl = clocks := by injection hc
              rw [← hcc]
              exact hcl
      simp [hne]
  exact ⟨rec_uninit env adt p hinit fuel id PMGR_PS_ACTIVE true st,
         rec_uninit env adt p hinit fuel id PMGR_PS_PWRGATE false st,
         hbatch PMGR_PS_ACTIVE true, hbatch PMGR_PS_PWRGATE false⟩

/-- Witness for C5: a module state with `initialized = false`. -/
theorem c5_witness :
    pmgr_clock_enable envGood adtW ⟨false, [], []⟩ 3 2 stW = (-1, stW) ∧
    pmgr_clock_disable envGood adtW ⟨false, [], []⟩ 3 2 stW = (-1, stW) ∧
    pmgr_adt_clocks_enable envGood adtW ⟨false, [], []⟩ 3 "/arm-io/x" stW = (-1, stW) ∧
    pmgr_adt_clocks_disable envGood adtW ⟨false, [], []⟩ 3 "/arm-io/x" stW = (-1, stW) :=
  c5_not_initialized_no_io envGood adtW ⟨false, [], []⟩ 3 2 "/arm-io/x" stW rfl

/-- C6: in recursive mode the engine tries parent slot 0 before slot 1, and a
failing recursive call is propagated immediately and unchanged: if the slot-0
call fails, its error result and its post-failure state are the result of the
whole call (slot 1 is never attempted, transitions already applied are kept);
if slot 0 succeeds and the slot-1 call fails, that failure and its state are
the result. -/
theorem c6_first_failure_short_circuit
    (env : Env) (adt : Adt) (p : Pmgr) (fuel id t : Nat) (st st1 : St)
    (d : PmgrDevice) (r : Int)
    (hinit : p.initialized = true) (hid : id ≠ 0)
    (hfind : pmgr_find_device p id = some d)
    (hself : pmgr_self_step env adt p d t st = (r, st1)) (hr : ¬r < 0) :
    (∀ (r0 : Int) (st2 : St), d.parent0 ≠ 0 →
      pmgr_set_mode_recursive env adt p fuel d.parent0 t true st1 = (r0, st2) → r0 < 0 →
      pmgr_set_mode_recursive env adt p (fuel + 1) id t true st = (r0, st2)) ∧
    (∀ (st2 : St) (r1 : Int) (st3 : St),
      (if d.parent0 ≠ 0 then pmgr_set_mode_recursive env adt p fuel d.parent0 t true st1
       else (0, st1)) = (0, st2) →
      d.parent1 ≠ 0 →
      pmgr_set_mode_recursive env adt p fuel d.parent1 t true st2 = (r1, st3) → r1 < 0 →
      pmgr_set_mode_recursive env adt p (fuel + 1) id t true st = (r1, st3)) := by
  constructor
  · intro r0 st2 hp0 h0 hr0
    rw [rec_succ_eq env adt p fuel id t true st d hinit hid hfind]
    simp only [hself]
    rw [if_neg hr, if_neg (by decide : ¬(true = false))]
    rw [if_pos hp0]
    simp only [h0]
    rw [if_pos hr0]
  · intro st2 r1 st3 h0 hp1 h1 hr1
    rw [rec_succ_eq env adt p fuel id t true st d hinit hid hfind]
    simp only [hself]
    rw [if_neg hr, if_neg (by decide : ¬(true = false))]
    simp only [h0]
    rw [if_neg (by decide : ¬((0 : Int) < 0))]
    rw [if_pos hp1]
    simp only [h1]
    rw [if_pos hr1]

/-- Concrete virtual device with id 1 and parent slots 2 and 3. -/
def devV : PmgrDevice := ⟨0x10, 2, 3, 0, 0, 1, ""⟩

/-- Concrete non-virtual device with id 2 whose register address cannot be
resolved (the ps-regs table is empty). -/
def devB : PmgrDevice := ⟨0, 0, 0, 0, 0, 2, ""⟩

/-- Concrete device tree with an empty ps-regs table. -/
def adtF : Adt := ⟨true, some [], some [devV, devB], fun _ => none, fun _ => some 0,
  fun _ => none⟩

/-- Concrete initialized module whose bank table is empty, so every address
resolution fails. -/
def pmgrF : Pmgr := ⟨true, [], [devV, devB]⟩

/-- Witness for C6: enabling virtual device 1 propagates the failure of its
slot-0 parent (device 2, unresolvable address) immediately and unchanged. -/
theorem c6_witness :
    pmgr_set_mode_recursive envGood adtF pmgrF 2 1 PMGR_PS_ACTIVE true stW = (-1, stW) :=
  (c6_first_failure_short_circuit envGood adtF pmgrF 1 1 PMGR_PS_ACTIVE stW stW devV 0
    rfl (by decide) rfl rfl (by decide)).1 (-1) stW (by decide) rfl (by decide)

/-- Concrete stuck hardware for witnesses: a write stores exactly the raw
value, so the ACTUAL_STATE field never changes in response to a TARGET_STATE
request. -/
def envStuck : Env := ⟨fun _ v => v⟩

/-- C7: pmgr_set_mode first performs the masked write of the TARGET_STATE
field (one read and one write on the register) and then polls the
ACTUAL_STATE field; on a register whose ACTUAL_STATE never equals the
requested mode the call terminates after exactly PMGR_POLL_TIMEOUT = 10000
poll reads and returns the timeout error -1. -/
theorem c7_set_mode_timeout (env : Env) (st : St) (addr t : Nat)
    (h : ¬set_mode_ok env st.mem addr t) :
    pmgr_set_mode env st addr t =
      (-1,
       ⟨fun a => if a = addr then env.react addr (targetWriteVal st.mem addr t) else st.mem a,
        st.trace ++ [Ev.read addr (st.mem addr), Ev.write addr (targetWriteVal st.mem addr t)]
          ++ List.replicate PMGR_POLL_TIMEOUT
               (Ev.read addr (env.react addr (targetWriteVal st.mem addr t)))⟩) := by
  rw [pmgr_set_mode_cases]
  simp [h]

/-- Witness for C7: stuck hardware at register 4 times out. -/
theorem c7_witness :
    pmgr_set_mode envStuck stW 4 PMGR_PS_ACTIVE =
      (-1,
       ⟨fun a => if a = 4 then envStuck.react 4 (targetWriteVal stW.mem 4 PMGR_PS_ACTIVE)
           else stW.mem a,
        stW.trace ++ [Ev.read 4 (stW.mem 4), Ev.write 4 (targetWriteVal stW.mem 4 PMGR_PS_ACTIVE)]
          ++ List.replicate PMGR_POLL_TIMEOUT
               (Ev.read 4 (envStuck.react 4 (targetWriteVal stW.mem 4 PMGR_PS_ACTIVE)))⟩) :=
  c7_set_mode_timeout envStuck stW 4 PMGR_PS_ACTIVE (by decide)

/-- C10: pmgr_init returns success (0) and marks the module initialized
whenever the PMU node exists and the ps-regs and devices properties are
present and non-empty, for every hardware environment and register state —
failed parent lookups, unresolvable addresses and set_mode timeouts inside
the reconciliation pass are skipped or have their results discarded and never
change the return value. -/
theorem c10_init_success_ignores_reconciliation
    (env : Env) (adt : Adt) (st : St) (ps : List Nat) (devs : List PmgrDevice)
    (hnode : adt.pmgrNode = true)
    (hps : adt.psRegs = some ps) (hpsne : ps ≠ [])
    (hdevs : adt.devicesProp = some devs) (hdevsne : devs ≠ []) :
    (pmgr_init env adt st).1 = 0 ∧ (pmgr_init env adt st).2.1.initialized = true := by
  unfold pmgr_init
  rw [if_neg (by simp [hnode] : ¬(adt.pmgrNode = false))]
  rw [hps]
  simp only []
  rw [if_neg hpsne]
  rw [hdevs]
  simp only []
  rw [if_neg hdevsne]
  exact ⟨rfl, rfl⟩

/-- Witness for C10: init succeeds on the concrete device tree even with
stuck hardware that would make every set_mode of the pass time out. -/
theorem c10_witness :
    (pmgr_init envStuck adtW stW).1 = 0 ∧
    (pmgr_init envStuck adtW stW).2.1.initialized = true :=
  c10_init_success_ignores_reconciliation envStuck adtW stW [0, 0, 0] [devW1, devW2]
    rfl rfl (by decide) rfl (by decide)

/-- Sequential per-entry results of the batch loop: each entry of the
clock-gates array receives exactly one recursive transition, in array order,
with the machine state threaded through every entry. -/
def run_clocks (env : Env) (adt : Adt) (p : Pmgr) (fuel t : Nat) (rc : Bool) :
    List Nat → St → List Int × St
  | [], st => ([], st)
  | c :: rest, st =>
    match pmgr_set_mode_recursive env adt p fuel c t rc st with
    | (r, st1) =>
      match run_clocks env adt p fuel t rc rest st1 with
      | (rs, st2) => (r :: rs, st2)

theorem clocks_loop_run (env : Env) (adt : Adt) (p : Pmgr) (fuel t : Nat) (rc : Bool) :
    ∀ (clocks : List Nat) (ret : Int) (st : St),
      pmgr_clocks_loop env adt p fuel t rc clocks ret st =
        (if (run_clocks env adt p fuel t rc clocks st).1.all (fun r => r == 0) then ret
         else -1,
         (run_clocks env adt p fuel t rc clocks st).2) := by
  intro clocks
  induction clocks with
  | nil => intro ret st; simp [pmgr_clocks_loop, run_clocks]
  | cons c rest ih =>
    intro ret st
    rcases hr : pmgr_set_mode_recursive env adt p fuel c t rc st with ⟨r, st1⟩
    rcases hrun : run_clocks env adt p fuel t rc rest st1 with ⟨rs, st2⟩
    simp only [pmgr_clocks_loop, run_clocks, hr, hrun]
    rw [ih, hrun]
    by_cases hrz : r = 0
    · subst hrz
      simp
    · by_cases hall : rs.all (fun x => x == 0) <;> simp [hrz, hall]

/-- C9: the batch operation applies the per-id transition to every entry of
the node's clock-gates array in array order — the final state is that of
running all entries sequentially, continuing through the remaining entries
even when an individual entry fails — and it returns 0 iff every per-entry
transition returned 0, returning -1 when at least one failed or when the
clock-gates property cannot be resolved. -/
theorem c9_batch_all_entries_aggregate
    (env : Env) (adt : Adt) (p : Pmgr) (fuel t : Nat) (rc : Bool) (path : String)
    (st : St) :
    (pmgr_adt_find_clocks adt path = none →
      pmgr_adt_clocks_set_mode env adt p fuel path t rc st = (-1, st)) ∧
    (∀ clocks, pmgr_adt_find_clocks adt path = some clocks →
      pmgr_adt_clocks_set_mode env adt p fuel path t rc st =
        (if (run_clocks env adt p fuel t rc clocks st).1.all (fun r => r == 0) then 0
         else -1,
         (run_clocks env adt p fuel t rc clocks st).2)) := by
  constructor
  · intro hc
    unfold pmgr_adt_clocks_set_mode
    rw [hc]
  · intro clocks hc
    unfold pmgr_adt_clocks_set_mode
    rw [hc]
    show pmgr_clocks_loop env adt p fuel t rc clocks 0 st = _
    rw [clocks_loop_run]

/-- Concrete device tree whose clock-gates property for every path lists the
existing device 2 followed by the absent id 7. -/
def adtC : Adt := ⟨true, some [0, 0, 0], some [devW1, devW2],
  fun i => if i = 0 then some 512 else none, fun _ => some 0, fun _ => some [2, 7]⟩

/-- Witness for C9: a batch over the array [2, 7] — id 2 resolvable, id 7
absent — is characterized by the sequential run of both entries. -/
theorem c9_witness :
    pmgr_adt_clocks_set_mode envGood adtC pmgrW 2 "/dev/x" PMGR_PS_ACTIVE true stW =
      (if (run_clocks envGood adtC pmgrW 2 PMGR_PS_ACTIVE true [2, 7] stW).1.all
           (fun r => r == 0) then 0
       else -1,
       (run_clocks envGood adtC pmgrW 2 PMGR_PS_ACTIVE true [2, 7] stW).2) :=
  (c9_batch_all_entries_aggregate envGood adtC pmgrW 2 PMGR_PS_ACTIVE true "/dev/x" stW).2
    [2, 7] rfl

/-- Virtual variant of device 2 (VIRTUAL flag set, same bank and offset). -/
def devW2v : PmgrDevice := ⟨0x10, 1, 0, 2, 0, 2, ""⟩

/-- Counterexample for C8: the source's device_address performs no VIRTUAL
check — on the virtual device `devW2v`, whose bank index resolves, it returns
the non-failure address 528 instead of failing. -/
theorem c8_counterexample :
    devW2v.flags &&& PMGR_FLAG_VIRTUAL ≠ 0 ∧
    pmgr_device_get_addr adtW pmgrW devW2v = 528 := by
  decide

/-- C8 (amended): resolve_bank_address is bounds-checked against the loaded
table's byte length — an index with `idx * 12` at or past the end yields the
failure sentinel 0 (for a well-formed table of 12-byte triples this check is
exact), in bounds it returns the bank base plus the entry's byte offset when
the base lookup succeeds and 0 when it fails; device_address returns 0
whenever bank resolution fails and bank_address + addr_offset * 8 otherwise —
it performs no VIRTUAL check itself, which is instead done by its callers
before any address resolution. -/
theorem c8_address_resolution (adt : Adt) (p : Pmgr) :
    (∀ idx, p.ps_regs_len ≤ idx * 12 → pmgr_get_psreg adt p idx = 0) ∧
    (∀ idx base, idx * 12 < p.ps_regs_len →
      adt.regBase (p.ps_regs.getD (3 * idx) 0) = some base →
      pmgr_get_psreg adt p idx = base + p.ps_regs.getD (3 * idx + 1) 0) ∧
    (∀ idx, idx * 12 < p.ps_regs_len →
      adt.regBase (p.ps_regs.getD (3 * idx) 0) = none →
      pmgr_get_psreg adt p idx = 0) ∧
    (∀ d : PmgrDevice, pmgr_get_psreg adt p d.psreg_idx = 0 →
      pmgr_device_get_addr adt p d = 0) ∧
    (∀ d : PmgrDevice, pmgr_get_psreg adt p d.psreg_idx ≠ 0 →
      pmgr_device_get_addr adt p d =
        pmgr_get_psreg adt p d.psreg_idx + d.addr_offset * 8) := by
  refine ⟨?_, ?_, ?_, ?_, ?_⟩
  · intro idx h
    unfold pmgr_get_psreg
    rw [if_pos h]
  · intro idx base h hb
    unfold pmgr_get_psreg
    rw [if_neg (by omega : ¬p.ps_regs_len ≤ idx * 12)]
    simp only []
    rw [hb]
  · intro idx h hb
    unfold pmgr_get_psreg
    rw [if_neg (by omega : ¬p.ps_regs_len ≤ idx * 12)]
    simp only []
    rw [hb]
  · intro d h
    unfold pmgr_device_get_addr
    simp [h]
  · intro d h
    unfold pmgr_device_get_addr
    simp [h]

/-- Witness for C8 (amended): bank 0 of the concrete table resolves to
base 512 plus the entry's byte offset. -/
theorem c8_witness :
    pmgr_get_psreg adtW pmgrW 0 = 512 + pmgrW.ps_regs.getD 1 0 :=
  (c8_address_resolution adtW pmgrW).2.1 0 512 (by decide) rfl

/-- C3: the reconciliation pass at the end of a successful pmgr_init folds the
per-device body over the whole device table (first conjunct); for a single
device: a non-virtual resolvable device whose register shows neither
AUTO_ENABLE nor TARGET_STATE == ACTIVE is only read and never written (second
conjunct); a device showing active reconciles parent slot 0 and then parent
slot 1 (third conjunct); an existing (non-zero, found, resolvable) parent
whose register shows neither AUTO_ENABLE nor TARGET_STATE == ACTIVE receives
exactly one non-recursive pmgr_set_mode to ACTIVE on its own register (fourth
conjunct); and a parent already showing AUTO_ENABLE or TARGET_STATE == ACTIVE
is only read and receives no write (fifth conjunct). -/
theorem c3_init_reconciliation (env : Env) (adt : Adt) (p : Pmgr) (st : St) :
    (∀ (ps : List Nat) (devs : List PmgrDevice),
      adt.pmgrNode = true → adt.psRegs = some ps → ps ≠ [] →
      adt.devicesProp = some devs → devs ≠ [] →
      pmgr_init env adt st =
        (0, ⟨true, ps, devs⟩,
         devs.foldl (pmgr_reconcile_device env adt ⟨true, ps, devs⟩) st)) ∧
    (∀ d : PmgrDevice, d.flags &&& PMGR_FLAG_VIRTUAL = 0 →
      pmgr_device_get_addr adt p d ≠ 0 →
      st.mem (pmgr_device_get_addr adt p d) &&& PMGR_AUTO_ENABLE = 0 →
      FIELD_GET PMGR_PS_TARGET (st.mem (pmgr_device_get_addr adt p d)) ≠ PMGR_PS_ACTIVE →
      pmgr_reconcile_device env adt p st d =
        ⟨st.mem, st.trace ++ [Ev.read (pmgr_device_get_addr adt p d)
          (st.mem (pmgr_device_get_addr adt p d))]⟩) ∧
    (∀ d : PmgrDevice, d.flags &&& PMGR_FLAG_VIRTUAL = 0 →
      pmgr_device_get_addr adt p d ≠ 0 →
      (st.mem (pmgr_device_get_addr adt p d) &&& PMGR_AUTO_ENABLE ≠ 0 ∨
       FIELD_GET PMGR_PS_TARGET (st.mem (pmgr_device_get_addr adt p d)) = PMGR_PS_ACTIVE) →
      pmgr_reconcile_device env adt p st d =
        pmgr_reconcile_parent env adt p
          (pmgr_reconcile_parent env adt p
            ⟨st.mem, st.trace ++ [Ev.read (pmgr_device_get_addr adt p d)
              (st.mem (pmgr_device_get_addr adt p d))]⟩ d.parent0) d.parent1) ∧
    (∀ (pid : Nat) (pd : PmgrDevice), pid ≠ 0 → pmgr_find_device p pid = some pd →
      pmgr_device_get_addr adt p pd ≠ 0 →
      st.mem (pmgr_device_get_addr adt p pd) &&& PMGR_AUTO_ENABLE = 0 →
      FIELD_GET PMGR_PS_TARGET (st.mem (pmgr_device_get_addr adt p pd)) ≠ PMGR_PS_ACTIVE →
      pmgr_reconcile_parent env adt p st pid =
        (pmgr_set_mode env
          ⟨st.mem, st.trace ++ [Ev.read (pmgr_device_get_addr adt p pd)
            (st.mem (pmgr_device_get_addr adt p pd))]⟩
          (pmgr_device_get_addr adt p pd) PMGR_PS_ACTIVE).2) ∧
    (∀ (pid : Nat) (pd : PmgrDevice), pid ≠ 0 → pmgr_find_device p pid = some pd →
      pmgr_device_get_addr adt p pd ≠ 0 →
      (st.mem (pmgr_device_get_addr adt p pd) &&& PMGR_AUTO_ENABLE ≠ 0 ∨
       FIELD_GET PMGR_PS_TARGET (st.mem (pmgr_device_get_addr adt p pd)) = PMGR_PS_ACTIVE) →
      pmgr_reconcile_parent env adt p st pid =
        ⟨st.mem, st.trace ++ [Ev.read (pmgr_device_get_addr adt p pd)
          (st.mem (pmgr_device_get_addr adt p pd))]⟩) := by
  refine ⟨?_, ?_, ?_, ?_, ?_⟩
  · intro ps devs hnode hps hpsne hdevs hdevsne
    unfold pmgr_init
    rw [if_neg (by simp [hnode] : ¬(adt.pmgrNode = false))]
    rw [hps]
    simp only []
    rw [if_neg hpsne]
    rw [hdevs]
    simp only []
    rw [if_neg hdevsne]
  · intro d hv ha h1 h2
    unfold pmgr_reconcile_device
    rw [if_neg (by simp [hv] : ¬(d.flags &&& PMGR_FLAG_VIRTUAL ≠ 0))]
    rw [if_neg ha]
    simp only [read32]
    rw [if_neg (by
      rintro (hc | hc)
      · exact hc h1
      · exact h2 hc)]
  · intro d hv ha hact
    unfold pmgr_reconcile_device
    rw [if_neg (by simp [hv] : ¬(d.flags &&& PMGR_FLAG_VIRTUAL ≠ 0))]
    rw [if_neg ha]
    simp only [read32]
    rw [if_pos hact]
  · intro pid pd hpid hfind ha h1 h2
    unfold pmgr_reconcile_parent
    rw [if_neg hpid]
    rw [hfind]
    simp only []
    rw [if_neg ha]
    simp only [read32]
    rw [if_pos ⟨h1, h2⟩]
  · intro pid pd hpid hfind ha hact
    unfold pmgr_reconcile_parent
    rw [if_neg hpid]
    rw [hfind]
    simp only []
    rw [if_neg ha]
    simp only [read32]
    rw [if_neg (by
      rintro ⟨hc1, hc2⟩
      rcases hact with hc | hc
      · exact hc hc1
      · exact hc2 hc)]

/-- Witness for C3: device 1 of the concrete table, as the idle parent of an
active child, receives exactly one non-recursive set_mode to ACTIVE. -/
theorem c3_witness :
    pmgr_reconcile_parent envGood adtW pmgrW stW 1 =
      (pmgr_set_mode envGood
        ⟨stW.mem, stW.trace ++ [Ev.read (pmgr_device_get_addr adtW pmgrW devW1)
          (stW.mem (pmgr_device_get_addr adtW pmgrW devW1))]⟩
        (pmgr_device_get_addr adtW pmgrW devW1) PMGR_PS_ACTIVE).2 :=
  (c3_init_reconciliation envGood adtW pmgrW stW).2.2.2.1 1 devW1 (by decide) rfl
    (by decide) (by decide) (by decide)
